import Mathlib

/-!
Verification development for the Panther drivetrain hardware control core
(`panther_hardware_interfaces`).  The C++ sources are shallowly embedded:
`std::int32_t` fields become `Int`, `std::uint8_t` flag bytes become `Nat`,
monotonic `timespec` instants become `Int` nanosecond counts, and code that
can throw `std::runtime_error` returns the stored data together with an
`Option String` carrying the message of the raised exception (`none` means
normal return).  Failure of an individual CAN/SDO operation is injected as a
`Bool` oracle, since whether the bus misbehaves is decided by the hardware.
-/

namespace PantherHW

/-- `RoboteqMotorState` from roboteq_driver.hpp: three signed 32-bit fields in
controller-native units. -/
structure RoboteqMotorState where
  pos : Int
  vel : Int
  current : Int
deriving DecidableEq, Repr

/-- `RoboteqDriverFeedback` from roboteq_driver.hpp: two motor states, four
flag bytes and the monotonic timestamp captured on PDO arrival. -/
structure RoboteqDriverFeedback where
  motor_1 : RoboteqMotorState
  motor_2 : RoboteqMotorState
  fault_flags : Nat
  script_flags : Nat
  runtime_stat_flag_motor_1 : Nat
  runtime_stat_flag_motor_2 : Nat
  timestamp : Int
deriving DecidableEq, Repr

/-- Modelled from the spec: the `RoboteqData` per-driver host-side aggregate
(its class definition is not among the provided sources; spec §3 lists its
fields: left and right motor state, flag bytes, `data_too_old` and
`can_error`).  The raw controller-native motor states are kept, since the
SI decoding is irrelevant to the claims about which channel lands where. -/
structure RoboteqData where
  left : RoboteqMotorState
  right : RoboteqMotorState
  data_too_old : Bool
  fault_flags : Nat
  script_flags : Nat
  runtime_stat_flag_motor_1 : Nat
  runtime_stat_flag_motor_2 : Nat
  can_error : Bool
deriving DecidableEq, Repr

/-- Modelled from the spec: `RoboteqData::SetMotorStates(left, right, too_old)`
(implementation not among the provided sources).  Spec §3 fixes the wiring
convention: the first stored state is the left motor, the second the right. -/
def RoboteqData.SetMotorStates (d : RoboteqData) (left right : RoboteqMotorState)
    (too_old : Bool) : RoboteqData :=
  { d with left := left, right := right, data_too_old := too_old }

/-- Modelled from the spec: `RoboteqData::SetFlags(fault, script, runtime_1,
runtime_2, can_error)` (implementation not among the provided sources);
stores the four flag bytes and the CAN-error flag of the driver. -/
def RoboteqData.SetFlags (d : RoboteqData) (fault script runtime_1 runtime_2 : Nat)
    (can_error : Bool) : RoboteqData :=
  { d with fault_flags := fault, script_flags := script,
           runtime_stat_flag_motor_1 := runtime_1,
           runtime_stat_flag_motor_2 := runtime_2,
           can_error := can_error }

/-- Result of one `UpdateSystemFeedback` cycle: the two per-driver aggregates
as stored by the call, and the message of the exception it raises, if any. -/
structure FeedbackResult where
  front : RoboteqData
  rear : RoboteqData
  error : Option String
deriving DecidableEq, Repr

/-- `PantherWheelsController::UpdateSystemFeedback`
(panther_wheels_controller.cpp:162-200).  Reads both PDO snapshots, captures
`now` from `CLOCK_MONOTONIC`, computes the per-driver staleness flags, stores
motor states (channel 2 first, channel 1 second) and flags into the host-side
data, and finally throws when either driver reports a CAN error. -/
def updateSystemFeedback (front_feedback rear_feedback : RoboteqDriverFeedback)
    (now timeout : Int) (front_can_error rear_can_error : Bool)
    (front_data rear_data : RoboteqData) : FeedbackResult :=
  let front_data_too_old := decide (now - front_feedback.timestamp > timeout)
  let rear_data_too_old := decide (now - rear_feedback.timestamp > timeout)
  let front_data := front_data.SetMotorStates front_feedback.motor_2
    front_feedback.motor_1 front_data_too_old
  let rear_data := rear_data.SetMotorStates rear_feedback.motor_2
    rear_feedback.motor_1 rear_data_too_old
  let front_data := front_data.SetFlags front_feedback.fault_flags
    front_feedback.script_flags front_feedback.runtime_stat_flag_motor_1
    front_feedback.runtime_stat_flag_motor_2 front_can_error
  let rear_data := rear_data.SetFlags rear_feedback.fault_flags
    rear_feedback.script_flags rear_feedback.runtime_stat_flag_motor_1
    rear_feedback.runtime_stat_flag_motor_2 rear_can_error
  { front := front_data, rear := rear_data,
    error := if front_can_error || rear_can_error then
      some "CAN error detected when trying to read roboteq feedback" else none }

/-- Events observable on the CAN bus from one controller-level call: an SDO
write towards the front driver or towards the rear driver. -/
inductive BusEvent
  | frontWrite
  | rearWrite
deriving DecidableEq, Repr

/-- Trace of one `PantherWheelsController::WriteSpeed` call
(panther_wheels_controller.cpp:213-233) with the outcome of each driver-level
operation injected as an oracle.  The front command is sent first; if it
throws, the wrapped exception propagates at once and the rear command is
never sent.  Only when both sends return does the CAN-error check run. -/
def writeSpeedTrace (front_write_fails rear_write_fails
    front_can_error rear_can_error : Bool) : List BusEvent × Option String :=
  if front_write_fails then
    ([.frontWrite], some "Front driver send roboteq cmd failed")
  else if rear_write_fails then
    ([.frontWrite, .rearWrite], some "Rear driver send roboteq cmd failed")
  else
    ([.frontWrite, .rearWrite],
      if front_can_error || rear_can_error then
        some "CAN error detected when trying to write speed commands" else none)

/-- Trace of `PantherWheelsController::TurnOnEstop`
(panther_wheels_controller.cpp:235-243): one try block issues the front SDO
write, then the rear one; the first throw aborts the block, so a front
failure prevents the rear write.  `rear_estop` is the rear driver's E-stop
state before the call; the returned Bool is its state afterwards (set only
by a successful rear write). -/
def turnOnEstopTrace (front_fails rear_fails rear_estop : Bool) :
    List BusEvent × Bool × Option String :=
  if front_fails then
    ([.frontWrite], rear_estop, some "Exception when trying to turn on estop")
  else if rear_fails then
    ([.frontWrite, .rearWrite], rear_estop,
      some "Exception when trying to turn on estop")
  else
    ([.frontWrite, .rearWrite], true, none)

/-- Trace of `PantherWheelsController::TurnOffEstop`
(panther_wheels_controller.cpp:245-253); identical control flow to
`turnOnEstopTrace`, a successful rear write clearing the rear E-stop. -/
def turnOffEstopTrace (front_fails rear_fails rear_estop : Bool) :
    List BusEvent × Bool × Option String :=
  if front_fails then
    ([.frontWrite], rear_estop, some "Exception when trying to turn off estop")
  else if rear_fails then
    ([.frontWrite, .rearWrite], rear_estop,
      some "Exception when trying to turn off estop")
  else
    ([.frontWrite, .rearWrite], false, none)

/-- `DrivetrainSettings` (spec §3): the fields that feed the SI↔fixed-point
conversion factors.  Real-valued, as the C++ uses `double`. -/
structure DrivetrainSettings where
  motor_torque_constant : ℝ
  gear_ratio : ℝ
  gearbox_efficiency : ℝ
  encoder_resolution : ℝ
  max_rpm_motor_speed : ℝ

/-- `std::round` rounding: to nearest, halves away from zero. -/
noncomputable def roundHalfAway (x : ℝ) : ℤ :=
  if 0 ≤ x then ⌊x + 1 / 2⌋ else -⌊-x + 1 / 2⌋

/-- `std::clamp(v, lo, hi)` for integers (equals `max lo (min v hi)` whenever
`lo ≤ hi`). -/
def clampInt (v lo hi : ℤ) : ℤ := max lo (min v hi)

/-- Modelled from the spec: the command conversion of the
`RoboteqCommandConverter` used by `WriteSpeed` (its implementation is not
among the provided sources).  Spec §4.4:
`cmd = clamp(round(ω · gear_ratio · 60 / (2π · max_rpm_motor_speed) · 1000), -1000, +1000)`. -/
noncomputable def Convert (s : DrivetrainSettings) (ω : ℝ) : ℤ :=
  clampInt
    (roundHalfAway (ω * s.gear_ratio * 60 / (2 * Real.pi * s.max_rpm_motor_speed) * 1000))
    (-1000) 1000

/-- The four fixed-point commands emitted by
`PantherWheelsController::WriteSpeed(speed_fl, speed_fr, speed_rl, speed_rr)`
(panther_wheels_controller.cpp:213-227): the front driver receives the
converted `fl` on channel 1 and `fr` on channel 2, the rear driver `rl` and
`rr`. -/
noncomputable def writeSpeedCommands (s : DrivetrainSettings)
    (speed_fl speed_fr speed_rl speed_rr : ℝ) : (ℤ × ℤ) × (ℤ × ℤ) :=
  ((Convert s speed_fl, Convert s speed_fr),
   (Convert s speed_rl, Convert s speed_rr))

/-- The drivetrain parameters of the spec's happy-path scenario (§8):
gear ratio 30.08 and maximum motor speed 3600 RPM.  The remaining fields do
not enter the command conversion. -/
noncomputable def pantherSettings : DrivetrainSettings :=
  { motor_torque_constant := 0.11
    gear_ratio := 30.08
    gearbox_efficiency := 0.75
    encoder_resolution := 1600
    max_rpm_motor_speed := 3600 }

instance {ε α : Type} [DecidableEq ε] [DecidableEq α] :
    DecidableEq (Except ε α) := fun a b =>
  match a, b with
  | .ok x, .ok y =>
    if h : x = y then .isTrue (by rw [h]) else .isFalse (by simp [h])
  | .ok _, .error _ => .isFalse (by simp)
  | .error _, .ok _ => .isFalse (by simp)
  | .error e, .error f =>
    if h : e = f then .isTrue (by rw [h]) else .isFalse (by simp [h])

/-- Outcome a boot callback delivers for one slave: success, or an error with
a diagnostic string. -/
inductive BootOutcome
  | ok
  | err (diagnostic : String)
deriving DecidableEq, Repr

/-- Modelled from the spec: `RoboteqDriver::WaitForBoot` (implementation not
among the provided sources).  Spec §4.2: it blocks until the boot callback
delivers success or an error code plus diagnostic string, and on failure
raises a boot error carrying the diagnostic verbatim. -/
def waitForBoot : BootOutcome → Except String Unit
  | .ok => .ok ()
  | .err diagnostic => .error diagnostic

/-- The boot phase of `PantherWheelsController::Initialize`
(panther_wheels_controller.cpp:94-106): `wait_for_boot` is called for the
front driver and any `runtime_error` from it is replaced by a fresh
`"Front driver boot failed"` exception; then the same for the rear driver
with `"Rear driver boot failed"`. -/
def initBootPhase (front rear : BootOutcome) : Except String Unit :=
  match waitForBoot front with
  | .error _ => .error "Front driver boot failed"
  | .ok () =>
    match waitForBoot rear with
    | .error _ => .error "Rear driver boot failed"
    | .ok () => .ok ()

/-- The startup synchronisation of `PantherWheelsController::Initialize`
(panther_wheels_controller.cpp:85-92).  The executor thread sets
`can_communication_started_` under the mutex and notifies; the initializing
thread, seeing the flag still false, calls
`can_communication_started_cond_.wait(lck)` — a wait with NO timeout
argument — and afterwards throws if the flag is still false.  `signalled`
says whether the executor thread has signalled readiness (within any given
deadline); `spurious_wakeup` whether the condition variable wakes spuriously
before any signal.  `none` models the call never returning: the wait blocks
with nothing left to wake it. -/
def initTransportWait (signalled spurious_wakeup : Bool) :
    Option (Except String Unit) :=
  if signalled then some (.ok ())
  else if spurious_wakeup then
    some (.error "CAN communication not initialized")
  else none

/-- Lifecycle phase of the transport objects owned by
`PantherWheelsController`: `fresh` (never initialized: `master_`,
`front_driver_`, ... are null and `executor_thread_` is not joinable),
`running` (Initialize has constructed everything and the executor thread
runs `loop_->run()`), `stopped` (Deinitialize has joined the thread and
reset every object to null). -/
inductive TransportPhase
  | fresh
  | running
  | stopped
deriving DecidableEq, Repr

/-- `PantherWheelsController::Initialize` (panther_wheels_controller.cpp:26-107)
at the lifecycle level: it unconditionally constructs the full transport
object graph on the spawned thread (reaching `running`), then boots both
drivers; a boot failure raises but leaves the transport constructed and the
event loop running. -/
def controllerInit (_ : TransportPhase) (front rear : BootOutcome) :
    TransportPhase × Except String Unit :=
  (.running, initBootPhase front rear)

/-- `PantherWheelsController::Deinitialize`
(panther_wheels_controller.cpp:109-127): submits `AsyncDeconfig` through
`master_`, joins `executor_thread_` and resets every owned pointer.  It is
well-defined only in phase `running`: in `fresh` or `stopped`, `master_` is
a null `unique_ptr` (dereferencing it is undefined behaviour) and
`executor_thread_.join()` on a non-joinable thread throws `std::system_error`
— modelled as `none`, no clean return. -/
def controllerDeinit : TransportPhase → Option TransportPhase
  | .running => some .stopped
  | _ => none

theorem roundHalfAway_zero : roundHalfAway 0 = 0 := by
  rw [roundHalfAway, if_pos le_rfl]
  norm_num

theorem roundHalfAway_neg (x : ℝ) : roundHalfAway (-x) = -roundHalfAway x := by
  rcases lt_trichotomy x 0 with h | h | h
  · rw [roundHalfAway, roundHalfAway, if_pos (by linarith), if_neg (not_le.mpr h),
      neg_neg]
  · subst h
    rw [neg_zero, roundHalfAway_zero, neg_zero]
  · rw [roundHalfAway, roundHalfAway, if_neg (by simp [h]), if_pos h.le, neg_neg]

theorem clampInt_neg_symm (v : ℤ) :
    clampInt (-v) (-1000) 1000 = -clampInt v (-1000) 1000 := by
  simp only [clampInt, min_def, max_def]
  split_ifs <;> omega

theorem clampInt_abs_le (v : ℤ) : |clampInt v (-1000) 1000| ≤ 1000 := by
  rw [abs_le]
  constructor <;> (simp only [clampInt, min_def, max_def]; split_ifs <;> omega)

/-- C5: for every drivetrain configuration and every input ω the command
conversion is bounded by 1000 in absolute value, maps 0 to 0 and is odd, so
every command handed to the driver's command channels lies in
[-1000, 1000]. -/
theorem Convert_bounded_zero_odd (s : DrivetrainSettings) (ω : ℝ) :
    |Convert s ω| ≤ 1000 ∧ Convert s 0 = 0 ∧ Convert s (-ω) = -Convert s ω := by
  refine ⟨clampInt_abs_le _, ?_, ?_⟩
  · have h0 : (0 : ℝ) * s.gear_ratio * 60 / (2 * Real.pi * s.max_rpm_motor_speed)
        * 1000 = 0 := by
      rw [zero_mul, zero_mul, zero_div, zero_mul]
    rw [Convert, h0, roundHalfAway_zero]
    rfl
  · have hneg : -ω * s.gear_ratio * 60 / (2 * Real.pi * s.max_rpm_motor_speed)
        * 1000
        = -(ω * s.gear_ratio * 60 / (2 * Real.pi * s.max_rpm_motor_speed)
            * 1000) := by
      ring
    rw [Convert, Convert, hneg, roundHalfAway_neg, clampInt_neg_symm]

theorem Convert_panther_one : Convert pantherSettings 1 = 80 := by
  have hπ : (3.14 : ℝ) < Real.pi := Real.pi_gt_d2
  have hπ' : Real.pi < 3.15 := Real.pi_lt_d2
  have hpos : (0 : ℝ) < Real.pi := Real.pi_pos
  have hx : (1 : ℝ) * (30.08 : ℝ) * 60 / (2 * Real.pi * 3600) * 1000
      = 752 / (3 * Real.pi) := by
    rw [div_mul_eq_mul_div, div_eq_div_iff (by positivity) (by positivity)]
    ring
  have hconv : Convert pantherSettings 1
      = clampInt (roundHalfAway (752 / (3 * Real.pi))) (-1000) 1000 := by
    simp only [Convert, pantherSettings]
    rw [hx]
  have hfloor : ⌊752 / (3 * Real.pi) + 1 / 2⌋ = (80 : ℤ) := by
    rw [Int.floor_eq_iff]
    constructor
    · have h : (79.5 : ℝ) ≤ 752 / (3 * Real.pi) := by
        rw [le_div_iff₀ (by positivity)]
        nlinarith
      push_cast
      linarith
    · have h : 752 / (3 * Real.pi) < (80.5 : ℝ) := by
        rw [div_lt_iff₀ (by positivity)]
        nlinarith
      push_cast
      linarith
  rw [hconv, roundHalfAway, if_pos (by positivity), hfloor]
  rfl

/-- C1: the command conversion used by `WriteSpeed` produces, for every
input ω, `clamp(round(ω · gear_ratio · 60 / (2π · max_rpm_motor_speed) ·
1000), -1000, +1000)`; with gear ratio 30.08 and maximum motor speed 3600
RPM, `WriteSpeed(1.0, 1.0, 1.0, 1.0)` emits the fixed-point command 80 on
both channels of both drivers. -/
theorem writeSpeed_command_conversion :
    (∀ (s : DrivetrainSettings) (ω : ℝ),
      Convert s ω
        = clampInt
            (roundHalfAway
              (ω * s.gear_ratio * 60 / (2 * Real.pi * s.max_rpm_motor_speed)
                * 1000))
            (-1000) 1000)
    ∧ writeSpeedCommands pantherSettings 1 1 1 1 = ((80, 80), (80, 80)) := by
  refine ⟨fun s ω => rfl, ?_⟩
  rw [writeSpeedCommands, Convert_panther_one]

/-- C2: in every `UpdateSystemFeedback` cycle, a driver's `data_too_old` flag
is true exactly when the monotonic time captured at the read minus that
driver's last PDO snapshot timestamp exceeds the feedback timeout, and the
flag is computed independently per driver: the front flag does not depend on
the rear snapshot and vice versa. -/
theorem updateSystemFeedback_data_too_old
    (ff rf : RoboteqDriverFeedback) (now timeout : Int) (fce rce : Bool)
    (fd rd : RoboteqData) :
    ((updateSystemFeedback ff rf now timeout fce rce fd rd).front.data_too_old
        = decide (now - ff.timestamp > timeout))
    ∧ ((updateSystemFeedback ff rf now timeout fce rce fd rd).rear.data_too_old
        = decide (now - rf.timestamp > timeout))
    ∧ (∀ rf' : RoboteqDriverFeedback,
        (updateSystemFeedback ff rf' now timeout fce rce fd rd).front.data_too_old
          = (updateSystemFeedback ff rf now timeout fce rce fd rd).front.data_too_old)
    ∧ (∀ ff' : RoboteqDriverFeedback,
        (updateSystemFeedback ff' rf now timeout fce rce fd rd).rear.data_too_old
          = (updateSystemFeedback ff rf now timeout fce rce fd rd).rear.data_too_old) :=
  ⟨rfl, rfl, fun _ => rfl, fun _ => rfl⟩

/-- C3: `UpdateSystemFeedback` raises if and only if at least one driver
reports its CAN-error flag, and in every call — the raising ones included —
the motor states, the four flag bytes and the CAN-error flag of both drivers
are already stored in the host-side per-driver data. -/
theorem updateSystemFeedback_error_handling
    (ff rf : RoboteqDriverFeedback) (now timeout : Int) (fce rce : Bool)
    (fd rd : RoboteqData) :
    ((updateSystemFeedback ff rf now timeout fce rce fd rd).error.isSome
        = (fce || rce))
    ∧ ((updateSystemFeedback ff rf now timeout fce rce fd rd).front
        = { left := ff.motor_2, right := ff.motor_1,
            data_too_old := decide (now - ff.timestamp > timeout),
            fault_flags := ff.fault_flags, script_flags := ff.script_flags,
            runtime_stat_flag_motor_1 := ff.runtime_stat_flag_motor_1,
            runtime_stat_flag_motor_2 := ff.runtime_stat_flag_motor_2,
            can_error := fce })
    ∧ ((updateSystemFeedback ff rf now timeout fce rce fd rd).rear
        = { left := rf.motor_2, right := rf.motor_1,
            data_too_old := decide (now - rf.timestamp > timeout),
            fault_flags := rf.fault_flags, script_flags := rf.script_flags,
            runtime_stat_flag_motor_1 := rf.runtime_stat_flag_motor_1,
            runtime_stat_flag_motor_2 := rf.runtime_stat_flag_motor_2,
            can_error := rce }) := by
  refine ⟨?_, rfl, rfl⟩
  cases fce <;> cases rce <;> rfl

/-- C6: in every feedback update, each driver's motor channel 2 is stored as
that driver's left motor state and motor channel 1 as its right motor state,
for the front and the rear driver alike. -/
theorem updateSystemFeedback_channel_mapping
    (ff rf : RoboteqDriverFeedback) (now timeout : Int) (fce rce : Bool)
    (fd rd : RoboteqData) :
    ((updateSystemFeedback ff rf now timeout fce rce fd rd).front.left
        = ff.motor_2)
    ∧ ((updateSystemFeedback ff rf now timeout fce rce fd rd).front.right
        = ff.motor_1)
    ∧ ((updateSystemFeedback ff rf now timeout fce rce fd rd).rear.left
        = rf.motor_2)
    ∧ ((updateSystemFeedback ff rf now timeout fce rce fd rd).rear.right
        = rf.motor_1) :=
  ⟨rfl, rfl, rfl, rfl⟩

/-- C4 counterexample: when the front driver's SDO write fails, `WriteSpeed`
rethrows at once and the rear driver's write is never attempted, so the
claim that the writes to both drivers are attempted on every call is false
at this input. -/
theorem writeSpeedTrace_front_failure_skips_rear :
    (writeSpeedTrace true false false false).1 = [BusEvent.frontWrite]
    ∧ BusEvent.rearWrite ∉ (writeSpeedTrace true false false false).1 := by
  decide

/-- C4 amended: any write failure makes `WriteSpeed` raise; the front write
is always attempted but the rear write only when the front write succeeds;
when both writes succeed, `WriteSpeed` raises exactly when either driver's
CAN-error flag is set. -/
theorem writeSpeedTrace_error_policy (fw rw fce rce : Bool) :
    (BusEvent.frontWrite ∈ (writeSpeedTrace fw rw fce rce).1)
    ∧ (BusEvent.rearWrite ∈ (writeSpeedTrace fw rw fce rce).1 ↔ fw = false)
    ∧ ((writeSpeedTrace fw rw fce rce).2.isSome = (fw || rw || fce || rce)) := by
  revert fw rw fce rce; decide

/-- C10: `TurnOnEstop` and `TurnOffEstop` issue the SDO write to the front
driver before the rear driver (the front write heads every bus trace), and
when the front write raises the rear write is not attempted at all and the
rear driver's E-stop state is unchanged by the failed call. -/
theorem turnEstop_front_first (ff rf st : Bool) :
    ((turnOnEstopTrace ff rf st).1.head? = some BusEvent.frontWrite)
    ∧ ((turnOffEstopTrace ff rf st).1.head? = some BusEvent.frontWrite)
    ∧ ((turnOnEstopTrace true rf st).1 = [BusEvent.frontWrite]
        ∧ (turnOnEstopTrace true rf st).2.1 = st)
    ∧ ((turnOffEstopTrace true rf st).1 = [BusEvent.frontWrite]
        ∧ (turnOffEstopTrace true rf st).2.1 = st) := by
  revert ff rf st; decide

/-- C7 counterexample: when the front slave's boot callback delivers the
diagnostic "SDO abort 05040000", `WaitForBoot` raises it verbatim, but
`Initialize` swallows it and raises the generic "Front driver boot failed";
the caller of `Initialize` never sees the slave's own diagnostic. -/
theorem initBootPhase_discards_diagnostic :
    waitForBoot (BootOutcome.err "SDO abort 05040000")
      = Except.error "SDO abort 05040000"
    ∧ initBootPhase (BootOutcome.err "SDO abort 05040000") BootOutcome.ok
      = Except.error "Front driver boot failed"
    ∧ ("Front driver boot failed" : String) ≠ "SDO abort 05040000" := by
  decide

/-- C7 amended: when a slave's boot fails, `WaitForBoot` delivers the boot
callback's error diagnostic verbatim, but `Initialize` catches that
exception and raises a generic "Front driver boot failed" (resp.
"Rear driver boot failed") message instead, for every diagnostic string. -/
theorem initBootPhase_generic_messages (d : String) (rear : BootOutcome) :
    (waitForBoot (BootOutcome.err d) = Except.error d)
    ∧ (initBootPhase (BootOutcome.err d) rear
        = Except.error "Front driver boot failed")
    ∧ (initBootPhase BootOutcome.ok (BootOutcome.err d)
        = Except.error "Rear driver boot failed")
    ∧ (initBootPhase BootOutcome.ok BootOutcome.ok = Except.ok ()) :=
  ⟨rfl, rfl, rfl, rfl⟩

/-- C8 counterexample: the condition-variable wait in `Initialize` has no
timeout argument, so when the transport thread never signals readiness (and
no spurious wakeup occurs) the call blocks forever — it neither returns nor
raises the "CAN communication not initialized" transport error. -/
theorem initTransportWait_blocks_without_signal :
    initTransportWait false false = none
    ∧ initTransportWait false false
        ≠ some (Except.error "CAN communication not initialized") := by
  decide

/-- C8 amended: the initializing thread waits on the ready condition with no
timeout: it blocks indefinitely exactly when the transport thread never
signals and no spurious wakeup occurs; it returns normally whenever the
thread has signalled; and the "CAN communication not initialized" error is
raised only through a spurious wakeup that precedes any signal. -/
theorem initTransportWait_no_timeout (sig sp : Bool) :
    (initTransportWait sig sp = none ↔ (sig = false ∧ sp = false))
    ∧ (initTransportWait true sp = some (Except.ok ()))
    ∧ (initTransportWait false true
        = some (Except.error "CAN communication not initialized")) := by
  revert sig sp; decide

/-- C9 counterexample: after a failed `Initialize` (front boot error)
followed by one clean `Deinitialize`, a second `Deinitialize` has no clean
return — it dereferences the null `master_` pointer and joins a non-joinable
thread — so `Deinitialize` is not idempotent. -/
theorem controllerDeinit_not_idempotent :
    (controllerInit TransportPhase.fresh (BootOutcome.err "boot timeout")
        BootOutcome.ok).2 = Except.error "Front driver boot failed"
    ∧ controllerDeinit (controllerInit TransportPhase.fresh
        (BootOutcome.err "boot timeout") BootOutcome.ok).1
      = some TransportPhase.stopped
    ∧ controllerDeinit TransportPhase.stopped = none := by
  decide

/-- C9 amended: a failed `Initialize` leaves the transport fully constructed
and running, so the `Deinitialize` that follows it returns cleanly, and a
subsequent `Initialize` with healthy boots succeeds (the transport is fully
reconstructable); but `Deinitialize` is not idempotent: called outside the
`running` phase it has no clean return. -/
theorem controllerLifecycle_after_failed_init (d : String) (rear : BootOutcome) :
    ((controllerInit TransportPhase.fresh (BootOutcome.err d) rear).1
        = TransportPhase.running)
    ∧ (controllerDeinit TransportPhase.running = some TransportPhase.stopped)
    ∧ ((controllerInit TransportPhase.stopped BootOutcome.ok BootOutcome.ok).2
        = Except.ok ())
    ∧ (controllerDeinit TransportPhase.stopped = none
        ∧ controllerDeinit TransportPhase.fresh = none) :=
  ⟨rfl, rfl, rfl, rfl, rfl⟩

end PantherHW
